import Mathlib

/-!
Shallow embedding of `emotions_agent.py` (Facial-Emotion-Detector).

The script is a single generator loop (`generate_frames`) that reads camera
frames, mirrors them, periodically runs emotion inference, draws overlays,
JPEG-encodes and yields multipart chunks; plus `initialize_camera` and `main`.

External collaborators (OpenCV, DeepFace, Flask) are modelled as opaque
inputs supplied per loop iteration: the camera read result, the reopen
outcome, the inference function and the JPEG encoder are fields of an
environment record, and `cv2.getTextSize` is a parameter function.
Frames are modelled as an image identity (raw capture id plus a mirrored
flag) together with the ordered list of drawing operations performed on
the buffer, since the claims are about which operations are drawn and in
what order, not about pixel values.

Unhandled Python exceptions inside the generator (reading from a `None`
camera object, `%` by zero) are modelled as `Except.error`, which
terminates the run (the generator crashes and the HTTP stream ends).
-/

namespace EmotionsAgent

/-- Configuration constants of the script. -/
def FRAME_SKIP : Nat := 10

def DETECTOR_BACKEND : String := "opencv"

def CAMERA_INDEX : Int := 1

/-- A face rectangle as returned by DeepFace in `face_data['region']`. -/
structure Region where
  x : Int
  y : Int
  w : Int
  h : Int
deriving Repr, DecidableEq

/-- One element of the list returned by `DeepFace.analyze`: the fields the
script reads via `.get`, each possibly absent. `dominant_emotion := some ""`
models a present-but-empty label (falsy in Python, like a missing one). -/
structure Detection where
  region : Option Region
  dominant_emotion : Option String
deriving Repr, DecidableEq

/-- Python truthiness of `emotion_raw` (`not emotion_raw`): an absent value
and the empty string are falsy. -/
def truthyStr : Option String → Bool
  | none => false
  | some s => !(s == "")

/-- Image identity of a frame buffer: which capture it came from and whether
`cv2.flip(frame, 1)` has mirrored it. -/
structure FrameData where
  raw : Nat
  mirrored : Bool
deriving Repr, DecidableEq

/-- A BGR colour triple as passed to OpenCV. -/
abbrev Color := Nat × Nat × Nat

/-- One drawing operation performed on a frame buffer. -/
inductive DrawOp where
  | rect (p1 p2 : Int × Int) (color : Color) (thickness : Int)
  | text (s : String) (org : Int × Int) (fontScale : ℚ) (color : Color)
      (thickness : Int)
deriving Repr, DecidableEq

/-- A frame buffer: its image identity plus the drawing operations applied
to it, in order. -/
structure Frame where
  data : FrameData
  ops : List DrawOp
deriving Repr, DecidableEq

/-- `cv2.flip(frame, code)`: code 1 mirrors horizontally. Only the
horizontal case (the one the script uses) is modelled; other codes leave
the image identity unchanged here. -/
def cvFlip (f : Frame) (code : Int) : Frame :=
  if code = 1 then { f with data := { f.data with mirrored := !f.data.mirrored } }
  else f

/-- `cv2.rectangle(frame, p1, p2, color, thickness)` (in-place mutation,
modelled as appending the operation). -/
def cvRectangle (f : Frame) (p1 p2 : Int × Int) (color : Color)
    (thickness : Int) : Frame :=
  { f with ops := f.ops ++ [DrawOp.rect p1 p2 color thickness] }

/-- `cv2.putText(frame, text, org, font, fontScale, color, thickness)`. -/
def cvPutText (f : Frame) (s : String) (org : Int × Int) (fontScale : ℚ)
    (color : Color) (thickness : Int) : Frame :=
  { f with ops := f.ops ++ [DrawOp.text s org fontScale color thickness] }

/-- The `font_scale = 0.7` constant of the drawing code. -/
def font_scale : ℚ := 7 / 10

/-- Python `str.capitalize()` for the ASCII labels DeepFace produces:
first character upper-cased, the rest lower-cased. -/
def pyCapitalize (s : String) : String :=
  match s.data with
  | [] => ""
  | c :: cs => String.mk (c.toUpper :: cs.map Char.toLower)

/-- The body of the `for face_data in last_detected_faces` loop: skip the
detection unless both `region` and `dominant_emotion` are truthy, otherwise
draw the bounding box, the label background and the label text.
`gts` models `cv2.getTextSize` (text width and height in pixels). -/
def drawFace (gts : String → Nat × Nat) (frame : Frame) (fd : Detection) :
    Frame :=
  match fd.region with
  | none => frame
  | some r =>
    if !truthyStr fd.dominant_emotion then frame
    else
      match fd.dominant_emotion with
      | none => frame
      | some emotion_raw =>
        let x := r.x
        let y := r.y
        let w := r.w
        let h := r.h
        let emotion := pyCapitalize emotion_raw
        let f1 := cvRectangle frame (x, y) (x + w, y + h) (0, 255, 0) 2
        let text := "Emotion: " ++ emotion
        let tw : Int := (gts text).1
        let th : Int := (gts text).2
        let f2 := cvRectangle f1 (x, y - th - 10) (x + tw, y - 5)
          (0, 255, 0) (-1)
        cvPutText f2 text (x, y - 10) font_scale (0, 0, 0) 2

/-- The `if last_detected_faces:` guard plus the drawing loop. -/
def drawFaces (gts : String → Nat × Nat) (faces : List Detection)
    (frame : Frame) : Frame :=
  if faces.isEmpty then frame
  else faces.foldl (drawFace gts) frame

/-- Bytes of an ASCII string literal. -/
def strToBytes (s : String) : List Nat :=
  s.data.map Char.toNat

/-- The multipart chunk the generator yields for one encoded frame, exactly
as the Python byte-literal concatenation builds it. -/
def multipartChunk (frame_bytes : List Nat) : List Nat :=
  strToBytes "--frame\r\n" ++ strToBytes "Content-Type: image/jpeg\r\n\r\n"
    ++ frame_bytes ++ strToBytes "\r\n"

/-- State threaded through the generator loop: whether `cap` is a live
capture object (`false` models `cap is None`), the `frame_count` counter
and the `last_detected_faces` cache. -/
structure GenState where
  cap : Bool
  frame_count : Nat
  last_detected_faces : List Detection
deriving Repr, DecidableEq

/-- What the external world does during one loop iteration: the result of
`cap.read()`, whether a reopen attempt (if made) succeeds, the behaviour of
`DeepFace.analyze` on the supplied image (if called), and the behaviour of
`cv2.imencode` on the supplied frame (if called). -/
structure IterEnv where
  read : Option Nat
  reopen : Bool
  analyze : FrameData → Except Unit (List Detection)
  imencode : Frame → Option (List Nat)

/-- Observable outcome of one loop iteration. `rendered` is the frame after
flip and overlay drawing (none when the read failed); `analyzedImage` is
the image passed to `DeepFace.analyze` this iteration (none when throttled
or the read failed); `emitted` is the yielded multipart chunk, if any. -/
structure StepOut where
  newState : GenState
  rendered : Option Frame
  analyzedImage : Option FrameData
  inferenceInvoked : Bool
  emitted : Option (List Nat)
deriving Repr

/-- One iteration of the `while True:` loop of `generate_frames`.
`Except.error ()` models an unhandled exception crashing the generator:
`cap.read()` when `cap` is `None` (AttributeError), and `%` by zero when
`FRAME_SKIP = 0` (ZeroDivisionError). -/
def generateFramesStep (frameSkip : Nat) (gts : String → Nat × Nat)
    (env : IterEnv) (s : GenState) : Except Unit StepOut :=
  if !s.cap then Except.error ()
  else
    match env.read with
    | none =>
      -- failed read: print, initialize_camera(), sleep(1), continue
      Except.ok { newState := { s with cap := env.reopen }
                  rendered := none
                  analyzedImage := none
                  inferenceInvoked := false
                  emitted := none }
    | some raw =>
      let frame0 : Frame := { data := { raw := raw, mirrored := false }, ops := [] }
      let frame := cvFlip frame0 1
      if frameSkip = 0 then Except.error ()
      else
        let invoke := s.frame_count % frameSkip == 0
        let analyzed := if invoke then some frame.data else none
        let last_detected_faces :=
          if invoke then
            match env.analyze frame.data with
            | Except.ok detected_faces => detected_faces
            | Except.error _ => []  -- clear faces if analysis fails
          else s.last_detected_faces
        let frame := drawFaces gts last_detected_faces frame
        let s' : GenState := { s with
          frame_count := s.frame_count + 1
          last_detected_faces := last_detected_faces }
        match env.imencode frame with
        | none =>
          Except.ok { newState := s'
                      rendered := some frame
                      analyzedImage := analyzed
                      inferenceInvoked := invoke
                      emitted := none }
        | some buffer =>
          Except.ok { newState := s'
                      rendered := some frame
                      analyzedImage := analyzed
                      inferenceInvoked := invoke
                      emitted := some (multipartChunk buffer) }

/-- Run the generator loop on a finite prefix of iteration environments.
Returns the iteration outcomes in order and whether the generator crashed
(an unhandled exception escaped, ending the HTTP stream). -/
def runLoop (frameSkip : Nat) (gts : String → Nat × Nat) :
    List IterEnv → GenState → List StepOut × Bool
  | [], _ => ([], false)
  | env :: envs, s =>
    match generateFramesStep frameSkip gts env s with
    | Except.error _ => ([], true)
    | Except.ok o =>
      let rest := runLoop frameSkip gts envs o.newState
      (o :: rest.1, rest.2)

/-- The state the loop starts from once the generator preamble has a live
camera: `frame_count = 0`, empty detection cache. -/
def initialGenState : GenState :=
  { cap := true, frame_count := 0, last_detected_faces := [] }

/-- `initialize_camera()`: given whether `cv2.VideoCapture(CAMERA_INDEX)`
yields an opened capture, returns the new value of the global `cap`
(`true` iff live) and the lines printed. -/
def initialize_camera (openSucceeds : Bool) : Bool × List String :=
  if openSucceeds then
    (true, ["Camera initialized successfully."])
  else
    (false,
      ["Error initializing camera: Cannot open webcam at index "
         ++ toString CAMERA_INDEX ++ ".",
       "Tip: Try changing CAMERA_INDEX to 0, 1, or 2."])

/-- Result of `main()`: the lines printed and, when the server is started,
the `(host, port)` it serves on. -/
structure MainResult where
  prints : List String
  server : Option (String × Nat)
deriving Repr, DecidableEq

/-- `main()`: initialize the camera; if `cap` is still `None`, print and
return without starting Flask; otherwise start `app.run` on 0.0.0.0:5001. -/
def main (openSucceeds : Bool) : MainResult :=
  let init := initialize_camera openSucceeds
  let prints := ["Initializing camera..."] ++ init.2
  if !init.1 then
    { prints := prints ++ ["Failed to initialize camera. Exiting."],
      server := none }
  else
    { prints := prints
        ++ ["Starting Flask server...",
            "Open http://127.0.0.1:5001 in your browser."],
      server := some ("0.0.0.0", 5001) }

/-! ## Helper definitions for the theorems -/

/-- CRLF as bytes. -/
def CRLF : List Nat := [13, 10]

/-- The frame buffer right after `cv2.flip(frame, 1)` on capture `raw`:
mirrored, nothing drawn yet. -/
def mirrorFrame (raw : Nat) : Frame :=
  { data := { raw := raw, mirrored := true }, ops := [] }

/-- The value stored into `last_detected_faces` by one iteration that read
capture `raw`: the (failure-absorbed) analysis result when the throttle
fires, the previous cache otherwise. Restates the corresponding `let` of
`generateFramesStep` for use in lemma statements. -/
def newFaces (env : IterEnv) (s : GenState) (frameSkip : Nat) (raw : Nat) :
    List Detection :=
  if s.frame_count % frameSkip == 0 then
    match env.analyze { raw := raw, mirrored := true } with
    | Except.ok detected_faces => detected_faces
    | Except.error _ => []
  else s.last_detected_faces

/-- The drawing operations `drawFace` appends for one detection (empty when
the detection is skipped). -/
def faceOps (gts : String → Nat × Nat) (fd : Detection) : List DrawOp :=
  (drawFace gts { data := { raw := 0, mirrored := false }, ops := [] } fd).ops

/-- `drawFace` only appends operations; what it appends depends only on the
detection (and text metrics), not on the frame. -/
theorem drawFace_eq_append (gts : String → Nat × Nat) (frame : Frame)
    (fd : Detection) :
    drawFace gts frame fd = { frame with ops := frame.ops ++ faceOps gts fd } := by
  rcases fd with ⟨region, emo⟩
  cases region with
  | none => simp [drawFace, faceOps]
  | some r =>
    cases emo with
    | none => simp [drawFace, faceOps, truthyStr]
    | some e =>
      by_cases he : e = ""
      · simp [drawFace, faceOps, truthyStr, he]
      · simp [drawFace, faceOps, truthyStr, he, cvRectangle, cvPutText]

/-- The `if last_detected_faces:` guard is behaviourally redundant:
`drawFaces` is the fold of `drawFace` in either case. -/
theorem drawFaces_eq_foldl (gts : String → Nat × Nat)
    (faces : List Detection) (frame : Frame) :
    drawFaces gts faces frame = faces.foldl (drawFace gts) frame := by
  cases faces <;> simp [drawFaces]

/-- `drawFaces` appends the per-detection operation lists in the order the
detections appear in the set. -/
theorem drawFaces_eq_append (gts : String → Nat × Nat)
    (faces : List Detection) (frame : Frame) :
    drawFaces gts faces frame =
      { frame with ops := frame.ops ++ (faces.map (faceOps gts)).flatten } := by
  rw [drawFaces_eq_foldl]
  induction faces generalizing frame with
  | nil => simp
  | cons fd rest ih =>
    rw [List.foldl_cons, ih, drawFace_eq_append]
    simp [List.append_assoc]

/-- Characterization of one loop iteration with a live camera and a
successful read: the step succeeds and its outcome is determined by the
throttle decision, the analysis result, the overlay drawing and the encode
result. -/
theorem generateFramesStep_read (frameSkip : Nat) (gts : String → Nat × Nat)
    (env : IterEnv) (s : GenState) (raw : Nat)
    (hcap : s.cap = true) (hread : env.read = some raw)
    (hN : frameSkip ≠ 0) :
    generateFramesStep frameSkip gts env s = Except.ok
      { newState := { s with
          frame_count := s.frame_count + 1
          last_detected_faces := newFaces env s frameSkip raw }
        rendered := some (drawFaces gts (newFaces env s frameSkip raw)
          (mirrorFrame raw))
        analyzedImage := if s.frame_count % frameSkip == 0 then
          some { raw := raw, mirrored := true } else none
        inferenceInvoked := s.frame_count % frameSkip == 0
        emitted := (env.imencode (drawFaces gts (newFaces env s frameSkip raw)
          (mirrorFrame raw))).map multipartChunk } := by
  simp only [generateFramesStep, hcap, hread, Bool.not_true, Bool.false_eq_true,
    Bool.not_false, if_false, if_true, if_neg hN, cvFlip, mirrorFrame, newFaces]
  norm_num
  split
  next heq => rw [heq]; rfl
  next buffer heq => rw [heq]; rfl

/-- A failed read with a live camera: print, reopen, sleep, `continue` —
no frame is rendered or emitted, the counter and cache are untouched, and
`cap` becomes whatever the reopen attempt produced. -/
theorem generateFramesStep_readFail (frameSkip : Nat)
    (gts : String → Nat × Nat) (env : IterEnv) (s : GenState)
    (hcap : s.cap = true) (hread : env.read = none) :
    generateFramesStep frameSkip gts env s = Except.ok
      { newState := { s with cap := env.reopen }
        rendered := none
        analyzedImage := none
        inferenceInvoked := false
        emitted := none } := by
  unfold generateFramesStep
  rw [hcap, hread]
  exact rfl

/-- Reading from a dead camera (`cap is None`) raises AttributeError:
the generator crashes. -/
theorem generateFramesStep_noCap (frameSkip : Nat)
    (gts : String → Nat × Nat) (env : IterEnv) (s : GenState)
    (hcap : s.cap = false) :
    generateFramesStep frameSkip gts env s = Except.error () := by
  unfold generateFramesStep
  rw [hcap]
  exact rfl

/-- A zero skip interval would make `frame_count % FRAME_SKIP` raise
ZeroDivisionError on the first processed frame. -/
theorem generateFramesStep_skipZero (gts : String → Nat × Nat)
    (env : IterEnv) (s : GenState) (raw : Nat)
    (hcap : s.cap = true) (hread : env.read = some raw) :
    generateFramesStep 0 gts env s = Except.error () := by
  unfold generateFramesStep
  rw [hcap, hread]
  exact rfl

/-- The byte-literal concatenation of the `yield` decomposes into the
marker, CRLF, the Content-Type header, CRLF, CRLF, the payload, CRLF. -/
theorem multipartChunk_spec_form (b : List Nat) :
    multipartChunk b = strToBytes "--frame" ++ CRLF
      ++ strToBytes "Content-Type: image/jpeg" ++ CRLF ++ CRLF
      ++ b ++ CRLF := by
  have h1 : strToBytes "--frame\r\n" = strToBytes "--frame" ++ CRLF := by decide
  have h2 : strToBytes "Content-Type: image/jpeg\r\n\r\n"
      = strToBytes "Content-Type: image/jpeg" ++ CRLF ++ CRLF := by decide
  have h3 : strToBytes "\r\n" = CRLF := by decide
  rw [multipartChunk, h1, h2, h3]
  simp [List.append_assoc]

/-! ## Concrete fixtures used by witnesses and scenarios -/

/-- A concrete text-metrics model: width 10 px per character, height 20 px. -/
def gts0 : String → Nat × Nat := fun s => (10 * s.length, 20)

/-- A face at region (10,10,50,50) labelled "happy". -/
def det0 : Detection :=
  { region := some { x := 10, y := 10, w := 50, h := 50 }
    dominant_emotion := some "happy" }

/-- An iteration where everything succeeds and analysis finds `det0`. -/
def envOk : IterEnv :=
  { read := some 0
    reopen := true
    analyze := fun _ => Except.ok [det0]
    imencode := fun _ => some [7] }

/-- An iteration where the read succeeds but `DeepFace.analyze` raises. -/
def envAnalyzeFail : IterEnv :=
  { read := some 0
    reopen := true
    analyze := fun _ => Except.error ()
    imencode := fun _ => some [7] }

/-- An iteration where `cv2.imencode` fails on every frame. -/
def envEncodeFail : IterEnv :=
  { read := some 0
    reopen := true
    analyze := fun _ => Except.ok []
    imencode := fun _ => none }

/-- An iteration whose read fails and whose reopen attempt also fails. -/
def envReadFailNoReopen : IterEnv :=
  { read := none
    reopen := false
    analyze := fun _ => Except.ok []
    imencode := fun _ => some [7] }

/-- An iteration whose read fails but whose reopen attempt succeeds. -/
def envReadFailReopen : IterEnv :=
  { read := none
    reopen := true
    analyze := fun _ => Except.ok []
    imencode := fun _ => some [7] }

/-- Unreachable fallback used by the concrete step-outcome fixtures. -/
def stepFallback : StepOut :=
  { newState := initialGenState
    rendered := none
    analyzedImage := none
    inferenceInvoked := false
    emitted := none }

/-- The outcome of one all-success iteration from the initial state
(computed from the step itself; the fallback branch is unreachable). -/
def outOk : StepOut :=
  match generateFramesStep 10 gts0 envOk initialGenState with
  | Except.ok o => o
  | Except.error _ => stepFallback

/-- The rendered frame of the all-success iteration. -/
def renderedOk : Frame := drawFaces gts0 [det0] (mirrorFrame 0)

/-- The outcome of one analysis-failure iteration from the initial state. -/
def outAnalyzeFail : StepOut :=
  match generateFramesStep 10 gts0 envAnalyzeFail initialGenState with
  | Except.ok o => o
  | Except.error _ => stepFallback

/-- The outcome of one encode-failure iteration from the initial state. -/
def outEncodeFail : StepOut :=
  match generateFramesStep 10 gts0 envEncodeFail initialGenState with
  | Except.ok o => o
  | Except.error _ => stepFallback

/-- The outcome of the all-success iteration following the encode-failure
one. -/
def outAfterEncodeFail : StepOut :=
  match generateFramesStep 10 gts0 envOk outEncodeFail.newState with
  | Except.ok o => o
  | Except.error _ => stepFallback

/-- The outcome of one failed-read iteration (reopen succeeds) from the
initial state. -/
def outReadFailReopen : StepOut :=
  match generateFramesStep 10 gts0 envReadFailReopen initialGenState with
  | Except.ok o => o
  | Except.error _ => stepFallback

/-- The outcome of the all-success iteration following the recovered
failed-read one. -/
def outAfterReopen : StepOut :=
  match generateFramesStep 10 gts0 envOk outReadFailReopen.newState with
  | Except.ok o => o
  | Except.error _ => stepFallback

/-- The drawing operations every frame of the end-to-end scenario carries:
the face box at (10,10)-(60,60), the filled label background, and the
"Emotion: Happy" label, under the `gts0` text metrics. -/
def happyOps : List DrawOp :=
  [DrawOp.rect (10, 10) (60, 60) (0, 255, 0) 2,
   DrawOp.rect (10, -20) (150, 5) (0, 255, 0) (-1),
   DrawOp.text "Emotion: Happy" (10, 0) font_scale (0, 0, 0) 2]

/-! ## The claims -/

/-- Claim C6: if the very first camera open at process start fails, `main`
prints the diagnostic tip suggesting other device indices and returns
without starting the Flask server; if it succeeds, the server starts on
host 0.0.0.0 port 5001. -/
theorem C6_startup_gate :
    ((main false).server = none ∧
      "Tip: Try changing CAMERA_INDEX to 0, 1, or 2." ∈ (main false).prints) ∧
    (main true).server = some ("0.0.0.0", 5001) := by
  refine ⟨⟨rfl, ?_⟩, rfl⟩
  simp [main, initialize_camera]

/-- Claim C7: every part the generator emits is exactly the literal marker
`--frame`, CRLF, the header `Content-Type: image/jpeg`, CRLF, CRLF, the
JPEG bytes the encoder produced for the rendered frame, CRLF, in order. -/
theorem C7_multipart_format (frameSkip : Nat) (gts : String → Nat × Nat)
    (env : IterEnv) (s : GenState) (o : StepOut) (c : List Nat)
    (hstep : generateFramesStep frameSkip gts env s = Except.ok o)
    (hemit : o.emitted = some c) :
    ∃ frame jpeg, o.rendered = some frame ∧ env.imencode frame = some jpeg ∧
      c = strToBytes "--frame" ++ CRLF
        ++ strToBytes "Content-Type: image/jpeg" ++ CRLF ++ CRLF
        ++ jpeg ++ CRLF := by
  cases hcap : s.cap with
  | false =>
    rw [generateFramesStep_noCap frameSkip gts env s hcap] at hstep
    exact absurd hstep (by simp)
  | true =>
    cases hread : env.read with
    | none =>
      rw [generateFramesStep_readFail frameSkip gts env s hcap hread] at hstep
      obtain rfl := Except.ok.inj hstep
      exact absurd hemit (by simp)
    | some raw =>
      rcases Nat.eq_zero_or_pos frameSkip with hN | hN
      · subst hN
        rw [generateFramesStep_skipZero gts env s raw hcap hread] at hstep
        exact absurd hstep (by simp)
      · rw [generateFramesStep_read frameSkip gts env s raw hcap hread
          (Nat.pos_iff_ne_zero.mp hN)] at hstep
        obtain rfl := Except.ok.inj hstep
        simp only at hemit
        cases henc : env.imencode (drawFaces gts (newFaces env s frameSkip raw)
            (mirrorFrame raw)) with
        | none => rw [henc] at hemit; exact absurd hemit (by simp)
        | some jpeg =>
          rw [henc] at hemit
          refine ⟨_, jpeg, rfl, henc, ?_⟩
          have hc : c = multipartChunk jpeg := by
            simpa using hemit.symm
          rw [hc, multipartChunk_spec_form]

/-- Claim C2: on a throttled (skipped) frame the renderer draws from
exactly the cached detection set, which is left untouched; on an inference
attempt the cache is overwritten wholesale with the (failure-absorbed)
analysis result; the rendered overlay always comes from the current cache
value. -/
theorem C2_sticky_cache (frameSkip : Nat) (gts : String → Nat × Nat)
    (env : IterEnv) (s : GenState) (o : StepOut) (raw : Nat)
    (hcap : s.cap = true) (hread : env.read = some raw) (hN : frameSkip ≠ 0)
    (hstep : generateFramesStep frameSkip gts env s = Except.ok o) :
    o.rendered = some (drawFaces gts o.newState.last_detected_faces
      (mirrorFrame raw)) ∧
    (o.inferenceInvoked = false →
      o.newState.last_detected_faces = s.last_detected_faces) ∧
    (o.inferenceInvoked = true →
      o.newState.last_detected_faces =
        match env.analyze { raw := raw, mirrored := true } with
        | Except.ok detected_faces => detected_faces
        | Except.error _ => []) := by
  rw [generateFramesStep_read frameSkip gts env s raw hcap hread hN] at hstep
  obtain rfl := Except.ok.inj hstep
  refine ⟨rfl, ?_, ?_⟩
  · intro h
    simp only at h
    simp [newFaces, h]
  · intro h
    simp only at h
    simp [newFaces, h]

/-- Claim C3: when the throttle fires and the inference call raises, the
iteration still succeeds (the error is absorbed), the cache becomes empty,
the frame is rendered with no overlay, and it is still emitted whenever
encoding succeeds. -/
theorem C3_inference_failure_degrades (frameSkip : Nat)
    (gts : String → Nat × Nat) (env : IterEnv) (s : GenState) (raw : Nat)
    (hcap : s.cap = true) (hread : env.read = some raw) (hN : frameSkip ≠ 0)
    (hthr : s.frame_count % frameSkip = 0)
    (herr : env.analyze { raw := raw, mirrored := true } = Except.error ()) :
    ∃ o, generateFramesStep frameSkip gts env s = Except.ok o ∧
      o.newState.last_detected_faces = [] ∧
      o.rendered = some (mirrorFrame raw) ∧
      (mirrorFrame raw).ops = [] ∧
      ∀ jpeg, env.imencode (mirrorFrame raw) = some jpeg →
        o.emitted = some (multipartChunk jpeg) := by
  have hfaces : newFaces env s frameSkip raw = [] := by
    simp [newFaces, hthr, herr]
  refine ⟨_, generateFramesStep_read frameSkip gts env s raw hcap hread hN,
    ?_, ?_, rfl, ?_⟩
  · simpa using hfaces
  · simp [hfaces, drawFaces]
  · intro jpeg henc
    simp only [hfaces]
    rw [show drawFaces gts [] (mirrorFrame raw) = mirrorFrame raw by
      simp [drawFaces]]
    simp [henc]

/-- Claim C10: every successfully read frame is mirrored by
`cv2.flip(frame, 1)` before anything else: the image handed to the
inference call (when invoked) and the image the overlay is drawn on and
emitted are both the horizontal mirror of the raw capture. -/
theorem C10_mirrored_before_use (frameSkip : Nat) (gts : String → Nat × Nat)
    (env : IterEnv) (s : GenState) (o : StepOut) (raw : Nat)
    (hcap : s.cap = true) (hread : env.read = some raw) (hN : frameSkip ≠ 0)
    (hstep : generateFramesStep frameSkip gts env s = Except.ok o) :
    cvFlip { data := { raw := raw, mirrored := false }, ops := [] } 1
      = mirrorFrame raw ∧
    (mirrorFrame raw).data.mirrored = true ∧
    (o.inferenceInvoked = true →
      o.analyzedImage = some (mirrorFrame raw).data) ∧
    o.rendered = some (drawFaces gts o.newState.last_detected_faces
      (mirrorFrame raw)) := by
  rw [generateFramesStep_read frameSkip gts env s raw hcap hread hN] at hstep
  obtain rfl := Except.ok.inj hstep
  refine ⟨?_, rfl, ?_, rfl⟩
  · simp [cvFlip, mirrorFrame]
  · intro h
    simp only at h
    simp [mirrorFrame, h]

/-! ## Witnesses for the claims above -/

/-- Witness for claim C7 at a concrete all-success iteration. -/
theorem C7_multipart_format_witness :
    outOk.rendered = some renderedOk ∧
    envOk.imencode renderedOk = some [7] ∧
    multipartChunk [7] = strToBytes "--frame" ++ CRLF
      ++ strToBytes "Content-Type: image/jpeg" ++ CRLF ++ CRLF
      ++ [7] ++ CRLF := by
  obtain ⟨f, j, h1, h2, h3⟩ := C7_multipart_format 10 gts0 envOk
    initialGenState outOk (multipartChunk [7]) rfl rfl
  have hf : some f = some renderedOk := by
    rw [← h1]
    rfl
  obtain rfl := Option.some.inj hf
  have hj : j = [7] := Option.some.inj
    (h2.symm.trans (rfl : envOk.imencode renderedOk = some [7]))
  subst hj
  exact ⟨h1, h2, h3⟩

/-- Witness for claim C2 at a concrete all-success iteration. -/
theorem C2_sticky_cache_witness :
    outOk.rendered = some (drawFaces gts0 outOk.newState.last_detected_faces
      (mirrorFrame 0)) ∧
    outOk.newState.last_detected_faces = [det0] :=
  ⟨(C2_sticky_cache 10 gts0 envOk initialGenState outOk 0 rfl rfl
      (by decide) rfl).1,
   (C2_sticky_cache 10 gts0 envOk initialGenState outOk 0 rfl rfl
      (by decide) rfl).2.2 rfl⟩

/-- Witness for claim C3 at a concrete analysis-failure iteration. -/
theorem C3_inference_failure_witness :
    outAnalyzeFail.newState.last_detected_faces = [] ∧
    outAnalyzeFail.rendered = some (mirrorFrame 0) ∧
    outAnalyzeFail.emitted = some (multipartChunk [7]) := by
  obtain ⟨o, h1, h2, h3, _, h5⟩ := C3_inference_failure_degrades 10 gts0
    envAnalyzeFail initialGenState 0 rfl rfl (by decide) rfl rfl
  have ho : (Except.ok o : Except Unit StepOut) = Except.ok outAnalyzeFail := by
    rw [← h1]
    rfl
  obtain rfl := Except.ok.inj ho
  exact ⟨h2, h3, h5 [7] rfl⟩

/-- Witness for claim C10 at a concrete all-success iteration. -/
theorem C10_mirrored_witness :
    cvFlip { data := { raw := 0, mirrored := false }, ops := [] } 1
      = mirrorFrame 0 ∧
    (mirrorFrame 0).data.mirrored = true ∧
    outOk.analyzedImage = some (mirrorFrame 0).data ∧
    outOk.rendered = some (drawFaces gts0 outOk.newState.last_detected_faces
      (mirrorFrame 0)) := by
  obtain ⟨h1, h2, h3, h4⟩ := C10_mirrored_before_use 10 gts0 envOk
    initialGenState outOk 0 rfl rfl (by decide) rfl
  exact ⟨h1, h2, h3 rfl, h4⟩

/-! ## Loop-level lemmas -/

/-- Unfolding `runLoop` over a successful iteration. -/
theorem runLoop_cons_ok (frameSkip : Nat) (gts : String → Nat × Nat)
    (env : IterEnv) (envs : List IterEnv) (s : GenState) (o : StepOut)
    (h : generateFramesStep frameSkip gts env s = Except.ok o) :
    runLoop frameSkip gts (env :: envs) s =
      (o :: (runLoop frameSkip gts envs o.newState).1,
       (runLoop frameSkip gts envs o.newState).2) := by
  simp only [runLoop, h]

/-- Unfolding `runLoop` over a crashing iteration. -/
theorem runLoop_cons_err (frameSkip : Nat) (gts : String → Nat × Nat)
    (env : IterEnv) (envs : List IterEnv) (s : GenState)
    (h : generateFramesStep frameSkip gts env s = Except.error ()) :
    runLoop frameSkip gts (env :: envs) s = ([], true) := by
  simp only [runLoop, h]

/-- Invariant of a run in which every read succeeds: no crash, one outcome
per environment, the counter advances by exactly one per processed frame,
and inference is invoked exactly when the counter entering the iteration is
divisible by the skip interval. -/
theorem runLoop_allReads (N : Nat) (gts : String → Nat × Nat)
    (envs : List IterEnv) (s : GenState)
    (hcap : s.cap = true) (hN : N ≠ 0)
    (hreads : ∀ env ∈ envs, env.read.isSome = true) :
    (runLoop N gts envs s).2 = false ∧
    (runLoop N gts envs s).1.length = envs.length ∧
    ∀ i (h : i < (runLoop N gts envs s).1.length),
      ((runLoop N gts envs s).1.get ⟨i, h⟩).inferenceInvoked
        = ((s.frame_count + i) % N == 0) ∧
      ((runLoop N gts envs s).1.get ⟨i, h⟩).newState.frame_count
        = s.frame_count + i + 1 := by
  revert hcap hreads
  induction envs generalizing s with
  | nil =>
    intro hcap hreads
    exact ⟨rfl, rfl, fun i h => absurd h (by simp [runLoop])⟩
  | cons env envs ih =>
    intro hcap hreads
    obtain ⟨raw, hread⟩ : ∃ raw, env.read = some raw := by
      have hs := hreads env (List.mem_cons_self env envs)
      cases henv : env.read with
      | none => rw [henv] at hs; exact absurd hs (by simp)
      | some raw => exact ⟨raw, rfl⟩
    have hstep := generateFramesStep_read N gts env s raw hcap hread hN
    rw [runLoop_cons_ok N gts env envs s _ hstep]
    have hrest := ih { s with
        frame_count := s.frame_count + 1
        last_detected_faces := newFaces env s N raw }
      hcap (fun e he => hreads e (List.mem_cons_of_mem env he))
    refine ⟨hrest.1, by simp [hrest.2.1], ?_⟩
    intro i h
    cases i with
    | zero =>
      refine ⟨?_, rfl⟩
      show (s.frame_count % N == 0) = ((s.frame_count + 0) % N == 0)
      rw [Nat.add_zero]
    | succ i =>
      have h' : i < (runLoop N gts envs { s with
          frame_count := s.frame_count + 1
          last_detected_faces := newFaces env s N raw }).1.length := by
        simpa using h
      obtain ⟨ha, hb⟩ := hrest.2.2 i h'
      constructor
      · show ((runLoop N gts envs _).1.get ⟨i, h'⟩).inferenceInvoked = _
        rw [ha]
        show ((s.frame_count + 1 + i) % N == 0)
          = ((s.frame_count + (i + 1)) % N == 0)
        have harith : s.frame_count + 1 + i = s.frame_count + (i + 1) := by
          omega
        rw [harith]
      · show ((runLoop N gts envs _).1.get ⟨i, h'⟩).newState.frame_count = _
        rw [hb]
        show s.frame_count + 1 + i + 1 = s.frame_count + (i + 1) + 1
        omega

/-- Claim C1: with skip interval N ≥ 1 and a sequence of successfully read
frames, the loop never crashes, produces one outcome per frame, increments
the counter by exactly one per processed frame, and invokes inference on
exactly the frames with zero-based index 0, N, 2N, … and never more
often. -/
theorem C1_throttle_exact (N : Nat) (gts : String → Nat × Nat)
    (envs : List IterEnv) (hN : 1 ≤ N)
    (hreads : ∀ env ∈ envs, env.read.isSome = true) :
    (runLoop N gts envs initialGenState).2 = false ∧
    (runLoop N gts envs initialGenState).1.length = envs.length ∧
    ∀ i (h : i < (runLoop N gts envs initialGenState).1.length),
      ((runLoop N gts envs initialGenState).1.get ⟨i, h⟩).inferenceInvoked
        = decide (i % N = 0) ∧
      ((runLoop N gts envs initialGenState).1.get
        ⟨i, h⟩).newState.frame_count = i + 1 := by
  obtain ⟨h1, h2, h3⟩ := runLoop_allReads N gts envs initialGenState rfl
    (Nat.pos_iff_ne_zero.mp hN) hreads
  refine ⟨h1, h2, fun i h => ?_⟩
  obtain ⟨ha, hb⟩ := h3 i h
  constructor
  · rw [ha]
    show ((0 + i) % N == 0) = decide (i % N = 0)
    rw [Nat.zero_add]
    by_cases hi : i % N = 0 <;> simp [hi]
  · rw [hb]
    show 0 + i + 1 = i + 1
    omega

/-- Witness for claim C1: N = 3 on four processed frames — inference fires
on frames 0 and 3 only, and the counter ends at 4. -/
theorem C1_throttle_witness :
    (1 : Nat) ≤ 3 ∧ envOk.read.isSome = true ∧
    (runLoop 3 gts0 [envOk, envOk, envOk, envOk] initialGenState).2
      = false ∧
    (runLoop 3 gts0 [envOk, envOk, envOk, envOk] initialGenState).1.length
      = 4 := by
  refine ⟨by norm_num, by decide, ?_, ?_⟩
  · exact (C1_throttle_exact 3 gts0 [envOk, envOk, envOk, envOk]
      (by norm_num) (by decide)).1
  · exact (C1_throttle_exact 3 gts0 [envOk, envOk, envOk, envOk]
      (by norm_num) (by decide)).2.1

/-- Claim C4: a detection lacking a region, or lacking a non-empty
dominant-emotion label, contributes no drawing operation (and raises no
error); the rendered overlay is the concatenation, in set order, of each
detection's operations. -/
theorem C4_missing_fields_skipped (gts : String → Nat × Nat) (frame : Frame)
    (faces : List Detection) (fd : Detection) (hmem : fd ∈ faces)
    (hmiss : fd.region = none ∨ fd.dominant_emotion = none
      ∨ fd.dominant_emotion = some "") :
    faceOps gts fd = [] ∧ drawFace gts frame fd = frame ∧
    drawFaces gts faces frame =
      { frame with ops := frame.ops ++ (faces.map (faceOps gts)).flatten } := by
  have hdraw : ∀ f : Frame, drawFace gts f fd = f := by
    intro f
    rcases fd with ⟨r, e⟩
    rcases hmiss with h | h | h
    · simp only at h
      subst h
      simp [drawFace]
    · simp only at h
      subst h
      cases r with
      | none => simp [drawFace]
      | some r => simp [drawFace, truthyStr]
    · simp only at h
      subst h
      cases r with
      | none => simp [drawFace]
      | some r => simp [drawFace, truthyStr]
  have hskip : faceOps gts fd = [] := by
    rw [faceOps, hdraw]
  exact ⟨hskip, hdraw frame, drawFaces_eq_append gts faces frame⟩

/-- Witness for claim C4 on a concrete set with one region-less detection
and one complete detection. -/
theorem C4_missing_fields_witness :
    faceOps gts0 { region := none, dominant_emotion := some "sad" } = [] ∧
    drawFace gts0 (mirrorFrame 0)
      { region := none, dominant_emotion := some "sad" } = mirrorFrame 0 ∧
    drawFaces gts0 [{ region := none, dominant_emotion := some "sad" }, det0]
      (mirrorFrame 0)
      = { mirrorFrame 0 with ops := (mirrorFrame 0).ops
          ++ (([{ region := none, dominant_emotion := some "sad" }, det0]).map
            (faceOps gts0)).flatten } :=
  C4_missing_fields_skipped gts0 (mirrorFrame 0)
    [{ region := none, dominant_emotion := some "sad" }, det0]
    { region := none, dominant_emotion := some "sad" }
    (List.mem_cons_self _ _) (Or.inl rfl)

/-- Claim C8: an encode failure emits nothing for that frame but the loop
continues (the counter still advances), and the next successfully encoded
frame is emitted with the correct multipart delimiters. -/
theorem C8_encode_failure_continues (frameSkip : Nat)
    (gts : String → Nat × Nat) (env1 env2 : IterEnv) (s : GenState)
    (raw1 raw2 : Nat) (buf : List Nat)
    (hcap : s.cap = true) (hN : frameSkip ≠ 0)
    (hread1 : env1.read = some raw1)
    (henc1 : ∀ f, env1.imencode f = none)
    (hread2 : env2.read = some raw2)
    (henc2 : ∀ f, env2.imencode f = some buf) :
    ∃ o1 o2, runLoop frameSkip gts [env1, env2] s = ([o1, o2], false) ∧
      o1.emitted = none ∧
      o1.newState.frame_count = s.frame_count + 1 ∧
      o2.emitted = some (multipartChunk buf) := by
  have h1 := generateFramesStep_read frameSkip gts env1 s raw1 hcap hread1 hN
  rw [henc1] at h1
  obtain ⟨o1, ho1, he1, hc1, hf1⟩ : ∃ o1,
      generateFramesStep frameSkip gts env1 s = Except.ok o1 ∧
      o1.emitted = none ∧ o1.newState.cap = true ∧
      o1.newState.frame_count = s.frame_count + 1 := by
    refine ⟨_, h1, rfl, ?_, rfl⟩
    exact hcap
  obtain ⟨o2, ho2, he2⟩ : ∃ o2,
      generateFramesStep frameSkip gts env2 o1.newState = Except.ok o2 ∧
      o2.emitted = some (multipartChunk buf) := by
    have h2 := generateFramesStep_read frameSkip gts env2 o1.newState raw2
      hc1 hread2 hN
    rw [henc2] at h2
    exact ⟨_, h2, rfl⟩
  refine ⟨o1, o2, ?_, he1, hf1, he2⟩
  rw [runLoop_cons_ok frameSkip gts env1 [env2] s o1 ho1,
    runLoop_cons_ok frameSkip gts env2 [] o1.newState o2 ho2]
  rfl

/-- Witness for claim C8: encode fails on the first frame, succeeds on the
second. -/
theorem C8_encode_failure_witness :
    runLoop 10 gts0 [envEncodeFail, envOk] initialGenState
      = ([outEncodeFail, outAfterEncodeFail], false) ∧
    outEncodeFail.emitted = none ∧
    outAfterEncodeFail.emitted = some (multipartChunk [7]) := by
  obtain ⟨o1, o2, hrun, he1, hf1, he2⟩ := C8_encode_failure_continues 10 gts0
    envEncodeFail envOk initialGenState 0 0 [7] rfl (by decide) rfl
    (fun _ => rfl) rfl (fun _ => rfl)
  have hids : ([o1, o2] : List StepOut) = [outEncodeFail, outAfterEncodeFail] := by
    have heq := hrun.symm.trans
      (show runLoop 10 gts0 [envEncodeFail, envOk] initialGenState
        = ([outEncodeFail, outAfterEncodeFail], false) from rfl)
    exact congrArg Prod.fst heq
  injection hids with ha hb
  injection hb with hc _
  subst ha
  subst hc
  exact ⟨hrun, he1, he2⟩

/-- Counterexample to claim C5: after one mid-stream failed read whose
reopen attempt fails, the very next iteration reads from a `None` camera
and the generator crashes (terminal stream failure) — it does not retry
indefinitely. The first iteration emits nothing and leaves `cap` dead;
the run's crash flag is set. -/
theorem C5_no_indefinite_retry_counterexample :
    runLoop FRAME_SKIP gts0 [envReadFailNoReopen, envOk] initialGenState
      = ([{ newState :=
              { cap := false, frame_count := 0, last_detected_faces := [] }
            rendered := none
            analyzedImage := none
            inferenceInvoked := false
            emitted := none }], true) := rfl

/-- Claim C5 (amended): after a mid-stream failed read the system calls
`initialize_camera` again and emits no frame during the gap; if the reopen
succeeds the stream resumes with the next successful read; but if the
reopen attempt fails, the next iteration crashes the generator (the code
does not survive a failed reopen attempt). -/
theorem C5_reinit_amended (frameSkip : Nat) (gts : String → Nat × Nat)
    (env env2 : IterEnv) (s : GenState) (raw : Nat) (buf : List Nat)
    (hcap : s.cap = true) (hread : env.read = none) (hN : frameSkip ≠ 0) :
    ∃ o, generateFramesStep frameSkip gts env s = Except.ok o ∧
      o.emitted = none ∧ o.rendered = none ∧
      o.newState.cap = env.reopen ∧
      o.newState.frame_count = s.frame_count ∧
      (env.reopen = false →
        generateFramesStep frameSkip gts env2 o.newState = Except.error ()) ∧
      (env.reopen = true → env2.read = some raw →
        (∀ f, env2.imencode f = some buf) →
        ∃ o2, generateFramesStep frameSkip gts env2 o.newState = Except.ok o2 ∧
          o2.emitted = some (multipartChunk buf)) := by
  refine ⟨_, generateFramesStep_readFail frameSkip gts env s hcap hread,
    rfl, rfl, rfl, rfl, ?_, ?_⟩
  · intro hre
    exact generateFramesStep_noCap frameSkip gts env2 _ hre
  · intro hre hread2 henc2
    have h2 := generateFramesStep_read frameSkip gts env2
      { s with cap := env.reopen } raw
      (show GenState.cap { s with cap := env.reopen } = true from hre)
      hread2 hN
    rw [henc2] at h2
    exact ⟨_, h2, rfl⟩

/-- Witness for the amended claim C5: a failed read whose reopen succeeds,
followed by a successful frame that is emitted again. -/
theorem C5_reinit_witness :
    outReadFailReopen.emitted = none ∧
    outReadFailReopen.rendered = none ∧
    outReadFailReopen.newState.cap = true ∧
    outReadFailReopen.newState.frame_count = 0 ∧
    outAfterReopen.emitted = some (multipartChunk [7]) := by
  obtain ⟨o, h1, h2, h3, h4, h5, _, h7⟩ := C5_reinit_amended 10 gts0
    envReadFailReopen envOk initialGenState 0 [7] rfl rfl (by decide)
  have ho : (Except.ok o : Except Unit StepOut)
      = Except.ok outReadFailReopen := by
    rw [← h1]
    rfl
  obtain rfl := Except.ok.inj ho
  obtain ⟨o2, h8, h9⟩ := h7 rfl rfl (fun _ => rfl)
  have ho2 : (Except.ok o2 : Except Unit StepOut)
      = Except.ok outAfterReopen := by
    rw [← h8]
    rfl
  obtain rfl := Except.ok.inj ho2
  exact ⟨h2, h3, h4, h5, h9⟩

/-- Claim C9: with FRAME_SKIP = 10 and ten identical frames whose single
inference call (on frame 0) finds one face at (10,10,50,50) labelled
"happy", the loop never crashes, inference runs only on frame 0, and all
ten rendered frames carry the same bounding box and "Emotion: Happy"
label operations. -/
theorem C9_sticky_scenario :
    (runLoop 10 gts0 (List.replicate 10 envOk) initialGenState).2
      = false ∧
    (runLoop 10 gts0 (List.replicate 10 envOk) initialGenState).1.map
      (fun o => o.inferenceInvoked)
      = [true, false, false, false, false, false, false, false, false,
         false] ∧
    (runLoop 10 gts0 (List.replicate 10 envOk) initialGenState).1.map
      (fun o => o.rendered.map Frame.ops)
      = List.replicate 10 (some happyOps) := by
  exact ⟨rfl, rfl, rfl⟩

end EmotionsAgent
